import Mathlib

/-!
Shallow embedding of `src/https_server.py`: a local development HTTPS server
that provisions a self-signed TLS credential file (`server.pem`) on first run,
either by invoking the external `openssl` tool (Method A) or by in-process
generation with the `cryptography` library (Method B), then binds a socket,
wraps it in a TLS context and serves forever.

The module-level script is modelled as a function from an environment (the
outcome of each external interaction: does the file exist, is `openssl`
resolvable and what does it exit with, is the `cryptography` library present,
do the two file writes succeed, is the port free, what the clock
and the random serial return) to an ordered list of observable events plus the
final state of the credential file at `server.pem`.
-/

namespace HttpsServer

/-- One subprocess invocation as performed by `subprocess.run` at
`src/https_server.py:23-26`: the argument vector and the keyword flags
`capture_output`, `text`, `check`. -/
structure SubprocessCall where
  args : List String
  captureOutput : Bool
  text : Bool
  check : Bool
deriving DecidableEq, Repr

/-- RSA key-generation parameters, from `rsa.generate_private_key` at
`src/https_server.py:42-45`. -/
structure RSAKeyParams where
  publicExponent : Nat
  keySize : Nat
deriving DecidableEq, Repr

/-- One X.509 name attribute (`x509.NameAttribute`), an OID tag plus its
string value. -/
structure NameAttr where
  oid : String
  value : String
deriving DecidableEq, Repr

/-- A general name inside a Subject-Alternative-Name extension:
`x509.DNSName` or `x509.IPAddress`. -/
inductive GeneralName where
  | dnsName (name : String)
  | ipAddress (addr : String)
deriving DecidableEq, Repr

/-- The Subject-Alternative-Name extension as added at
`src/https_server.py:68-74`: its general names and the `critical` flag. -/
structure SubjectAltName where
  names : List GeneralName
  critical : Bool
deriving DecidableEq, Repr

/-- The certificate produced by the `x509.CertificateBuilder` chain at
`src/https_server.py:56-74`.  Times are seconds since an arbitrary epoch
(`datetime.now(timezone.utc)` results); `timedelta(days=365)` is 365 times
86400 seconds. -/
structure Certificate where
  subject : List NameAttr
  issuer : List NameAttr
  publicKeyOf : RSAKeyParams
  serialNumber : Nat
  notValidBefore : Nat
  notValidAfter : Nat
  san : SubjectAltName
  signedWith : RSAKeyParams
  signatureHash : String
deriving DecidableEq, Repr

/-- A PEM-encoded block as written to `server.pem` at
`src/https_server.py:77-83`: either the private key (with its encoding,
format and encryption algorithm, the arguments of `private_bytes`) or the
certificate (argument of `public_bytes`). -/
inductive PEMBlock where
  | privateKey (key : RSAKeyParams) (encoding fmt encryptionAlg : String)
  | certificate (cert : Certificate) (encoding : String)
deriving DecidableEq, Repr

/-- State of the file at the configured credential path after the run.
`created bs` is a file the script itself opened with `open('server.pem','wb')`
and into which it wrote the blocks `bs` so far (so `created [k]` is a
truncated file holding only the key).  `opensslOutput` is whatever the
external tool wrote on a successful Method A run (the tool writes the file
itself; its effects are modelled as atomic: full output on success, nothing
on failure, since the tool is an external collaborator). -/
inductive FileState where
  | absent
  | preexisting
  | opensslOutput
  | created (blocks : List PEMBlock)
deriving DecidableEq, Repr

/-- Observable events of one run, in program order: console prints, the
existence check, the subprocess call, the `cryptography` import attempt, the
two file writes, `sys.exit`, an uncaught exception propagating to the process
boundary, socket bind, TLS-context construction, `load_cert_chain`,
`wrap_socket`, and entering `serve_forever`. -/
inductive Event where
  | checkedExists (found : Bool)
  | printed (msg : String)
  | ranSubprocess (call : SubprocessCall)
  | triedImport (ok : Bool)
  | wroteBlock (b : PEMBlock)
  | exited (code : Nat)
  | raised (exc : String)
  | boundSocket (host : String) (port : Nat)
  | builtTLSContext
  | loadedCertChain (path : String)
  | wrappedSocket
  | servedForever
deriving DecidableEq, Repr

/-- Environment of one run: the outcome of every interaction with the outside
world, in the order the fields are listed — whether `server.pem` exists at
start, whether `openssl` is resolvable on the path, the exit status `openssl`
would return, whether the `cryptography` library is importable, whether the
key write and the certificate write at `src/https_server.py:78-83` succeed at
the OS level, the two `datetime.now(timezone.utc)` results (seconds), the
`x509.random_serial_number()` result, whether a preexisting `server.pem` is a
loadable credential, whether the openssl-written file is loadable, and
whether the port is already in use at bind time. -/
structure Env where
  fileExists : Bool
  opensslFound : Bool
  opensslExit : Nat
  cryptoAvailable : Bool
  keyWriteOk : Bool
  certWriteOk : Bool
  nowBefore : Nat
  nowAfter : Nat
  serialNum : Nat
  preexistingValid : Bool
  opensslOutputValid : Bool
  portInUse : Bool
deriving DecidableEq, Repr

/-- Result of the provisioning block (`src/https_server.py:17-98`): the
events it emitted, the resulting file state, and whether control continues to
the server-startup code (`ok = false` means the process already terminated,
by `sys.exit(1)` or by an uncaught exception). -/
structure ProvState where
  events : List Event
  file : FileState
  ok : Bool
deriving DecidableEq, Repr

/-- `HOST = '0.0.0.0'` (`src/https_server.py:13`): listen on all
interfaces. -/
def HOST : String := "0.0.0.0"

/-- `PORT = 8443` (`src/https_server.py:14`). -/
def PORT : Nat := 8443

/-- The configured credential path, the relative literal `'server.pem'` used
at `src/https_server.py:17`, `24`, `77` and `112`. -/
def certPath : String := "server.pem"

/-- The fixed `openssl` invocation of Method A (`src/https_server.py:23-26`):
`openssl req -new -x509 -keyout server.pem -out server.pem -days 365 -nodes
-subj /CN=localhost`, with `capture_output=True, text=True, check=True`. -/
def opensslCall : SubprocessCall :=
  ⟨["openssl", "req", "-new", "-x509", "-keyout", "server.pem",
    "-out", "server.pem", "-days", "365", "-nodes", "-subj", "/CN=localhost"],
   true, true, true⟩

/-- The RSA parameters of Method B (`src/https_server.py:42-45`):
`public_exponent=65537, key_size=2048`. -/
def methodBKey : RSAKeyParams := ⟨65537, 2048⟩

/-- The fixed subject (and issuer) name of Method B
(`src/https_server.py:48-54`). -/
def subjectName : List NameAttr :=
  [⟨"COUNTRY_NAME", "JP"⟩, ⟨"STATE_OR_PROVINCE_NAME", "Tokyo"⟩,
   ⟨"LOCALITY_NAME", "Tokyo"⟩, ⟨"ORGANIZATION_NAME", "Local Dev"⟩,
   ⟨"COMMON_NAME", "localhost"⟩]

/-- Seconds in one day, the unit of `timedelta(days=...)`. -/
def secondsPerDay : Nat := 86400

/-- The certificate built by Method B (`src/https_server.py:56-74`),
parameterised by the two `datetime.now(timezone.utc)` call results (the call
at line 65 for `not_valid_before`, the call at line 67 for
`not_valid_after`) and by the random serial number. -/
def methodBCert (nowBefore nowAfter serialNum : Nat) : Certificate :=
  ⟨subjectName, subjectName, methodBKey, serialNum,
   nowBefore, nowAfter + 365 * secondsPerDay,
   ⟨[.dnsName "localhost", .ipAddress "127.0.0.1"], false⟩,
   methodBKey, "SHA256"⟩

/-- The private-key PEM block written first at `src/https_server.py:78-82`:
`Encoding.PEM`, `PrivateFormat.TraditionalOpenSSL`, `NoEncryption`. -/
def keyBlock : PEMBlock :=
  .privateKey methodBKey "PEM" "TraditionalOpenSSL" "NoEncryption"

/-- The certificate PEM block written second at `src/https_server.py:83`. -/
def certBlock (env : Env) : PEMBlock :=
  .certificate (methodBCert env.nowBefore env.nowAfter env.serialNum) "PEM"

/-- The ten remediation lines printed by the `ImportError` handler
(`src/https_server.py:88-97`): install the `cryptography` library, install
OpenSSL, or supply an existing `server.pem`. -/
def remediationMsgs : List String :=
  ["\n【エラー】証明書の生成に失敗しました。",
   "\n以下のいずれかの方法で解決してください：",
   "\n方法1: cryptographyライブラリをインストール（推奨）",
   "  pip install cryptography",
   "\n方法2: OpenSSLをインストール",
   "  Windowsの場合: https://slproweb.com/products/Win32OpenSSL.html",
   "  またはChocolatey: choco install openssl",
   "\n方法3: 既存の証明書を使用",
   "  server.pemファイルをプロジェクトフォルダに配置してください",
   "\nインストール後、再度 python https_server.py を実行してください。"]

/-- The credential-provisioning block (`src/https_server.py:17-98`).
If `server.pem` exists the whole block is skipped.  Otherwise Method A runs
the `openssl` subprocess; `FileNotFoundError` (tool not resolvable) and
`CalledProcessError` (non-zero exit, raised because `check=True`) are both
caught and fall through to Method B.  Method B imports `cryptography`
(`ImportError` is caught and leads to the remediation prints and
`sys.exit(1)`), generates the key and certificate, and writes the two PEM
blocks inside one `open('server.pem', 'wb')`; an OS-level write failure is
not caught by the `except ImportError` handler and propagates. -/
def provision (env : Env) : ProvState :=
  if env.fileExists then
    ⟨[.checkedExists true], .preexisting, true⟩
  else
    let evs0 : List Event :=
      [.checkedExists false, .printed "自己署名証明書を生成中...",
       .ranSubprocess opensslCall]
    if env.opensslFound && env.opensslExit == 0 then
      ⟨evs0 ++ [.printed "証明書を生成しました: server.pem"], .opensslOutput, true⟩
    else
      let evs1 := evs0 ++
        [.printed "OpenSSLが見つかりません。Pythonで証明書を生成します..."]
      if env.cryptoAvailable then
        let evs2 := evs1 ++ [.triedImport true]
        if env.keyWriteOk then
          if env.certWriteOk then
            ⟨evs2 ++ [.wroteBlock keyBlock, .wroteBlock (certBlock env),
                      .printed "証明書を生成しました: server.pem"],
             .created [keyBlock, certBlock env], true⟩
          else
            ⟨evs2 ++ [.wroteBlock keyBlock, .raised "OSError"],
             .created [keyBlock], false⟩
        else
          ⟨evs2 ++ [.raised "OSError"], .created [], false⟩
      else
        ⟨evs1 ++ [.triedImport false] ++ remediationMsgs.map .printed ++
           [.exited 1],
         .absent, false⟩

/-- Whether `context.load_cert_chain('server.pem')` succeeds for a given file
state: a complete Method B bundle (key then certificate) is loadable; a
preexisting file or openssl output is loadable when the environment says so;
an absent or truncated file is not. -/
def credOk (env : Env) : FileState → Bool
  | .preexisting => env.preexistingValid
  | .opensslOutput => env.opensslOutputValid
  | .created bs => bs.length == 2
  | .absent => false

/-- The five startup prints (`src/https_server.py:101-105`): the bind URL,
the local URL, the (hard-coded) network URL, and the two-line warning that
browsers will flag the self-signed certificate. -/
def startupMsgs : List String :=
  ["HTTPSサーバーを起動: https://" ++ HOST ++ ":" ++ toString PORT,
   "ローカル: https://localhost:" ++ toString PORT,
   "ネットワーク: https://192.168.10.103:" ++ toString PORT,
   "\n警告: 自己署名証明書のため、ブラウザで警告が表示されます",
   "「詳細設定」→「安全でないサイトに進む」をクリックしてください\n"]

/-- The server-startup code (`src/https_server.py:101-116`): the startup
prints, then `http.server.HTTPServer` (which binds the socket — a port
already in use raises `OSError`, uncaught), then `ssl.SSLContext`,
`load_cert_chain` (an unreadable or malformed file raises `ssl.SSLError`,
uncaught), `wrap_socket`, the interrupt-key print, and `serve_forever`.
`fileOk` is whether `load_cert_chain` succeeds on the provisioned file. -/
def bootstrap (env : Env) (fileOk : Bool) : List Event :=
  let pr := startupMsgs.map Event.printed
  if env.portInUse then
    pr ++ [.raised "OSError"]
  else
    let evs := pr ++ [.boundSocket HOST PORT, .builtTLSContext]
    if fileOk then
      evs ++ [.loadedCertChain certPath, .wrappedSocket,
              .printed "Ctrl+C で停止", .servedForever]
    else
      evs ++ [.raised "SSLError"]

/-- The whole script: the provisioning block, then — only when provisioning
fell through without terminating the process — the server startup. -/
def run (env : Env) : List Event × FileState :=
  let p := provision env
  if p.ok then (p.events ++ bootstrap env (credOk env p.file), p.file)
  else (p.events, p.file)

/-- Method A fails (`src/https_server.py:28`): the tool is not resolvable
(`FileNotFoundError`) or it exits non-zero (`CalledProcessError`, because
`check=True`). -/
def methodAFails (env : Env) : Prop :=
  env.opensslFound = false ∨ env.opensslExit ≠ 0

/-- Method A succeeds: the tool is resolvable and exits with status 0. -/
def methodASucceeds (env : Env) : Prop :=
  env.opensslFound = true ∧ env.opensslExit = 0

/-- An event terminating the process abnormally: `sys.exit` with a non-zero
code, or an uncaught exception reaching the process boundary. -/
def isFatal : Event → Bool
  | .exited c => c != 0
  | .raised _ => true
  | _ => false

/-! Concrete sample environments, used to instantiate the universally
quantified theorems below.  Field order: `fileExists`, `opensslFound`,
`opensslExit`, `cryptoAvailable`, `keyWriteOk`, `certWriteOk`, `nowBefore`,
`nowAfter`, `serialNum`, `preexistingValid`, `opensslOutputValid`,
`portInUse`. -/

/-- `server.pem` already exists and is loadable; the port is free. -/
def envExisting : Env := ⟨true, false, 0, false, true, true, 0, 0, 0, true, true, false⟩

/-- No file, `openssl` not resolvable, `cryptography` not importable. -/
def envNoCrypto : Env := ⟨false, false, 1, false, true, true, 0, 0, 0, true, true, false⟩

/-- No file, `openssl` not resolvable, Method B succeeds. -/
def envMethodB : Env := ⟨false, false, 1, true, true, true, 5, 7, 42, true, true, false⟩

/-- No file, `openssl` resolvable and exits 0 (Method A succeeds). -/
def envMethodA : Env := ⟨false, true, 0, false, true, true, 0, 0, 0, true, true, false⟩

/-- No file, Method A fails, `cryptography` importable, but the certificate
write fails at the OS level after the key write succeeded. -/
def envCertWriteFail : Env := ⟨false, false, 1, true, true, false, 5, 7, 42, true, true, false⟩

/-- `server.pem` exists but the port is already in use. -/
def envPortBusy : Env := ⟨true, false, 0, false, true, true, 0, 0, 0, true, true, true⟩

/-- `server.pem` exists but is not a loadable credential; the port is free. -/
def envBadCred : Env := ⟨true, false, 0, false, true, true, 0, 0, 0, false, true, false⟩

/-- The guard of the Method A success branch is false exactly when Method A
fails. -/
lemma methodA_guard_false (env : Env) (h : methodAFails env) :
    (env.opensslFound && (env.opensslExit == 0)) = false := by
  rcases h with h | h
  · simp [h]
  · simp [h]

/-- The guard of the Method A success branch is true when Method A
succeeds. -/
lemma methodA_guard_true (env : Env) (h : methodASucceeds env) :
    (env.opensslFound && (env.opensslExit == 0)) = true := by
  simp [h.1, h.2]

/-- C3: when a file already exists at the configured credential path, the
provisioner is a no-op — the only provisioning event is the existence check
(neither generation method runs, nothing is printed, written or validated),
the file keeps its preexisting contents, and control continues. -/
theorem C3_existing_file_noop (env : Env) (h : env.fileExists = true) :
    (provision env).events = [.checkedExists true] ∧
    (provision env).file = .preexisting ∧
    (provision env).ok = true := by
  simp [provision, h]

/-- Witness for C3 at a concrete environment with the file present. -/
theorem C3_existing_file_noop_witness :
    (provision envExisting).events = [.checkedExists true] ∧
    (provision envExisting).file = .preexisting ∧
    (provision envExisting).ok = true :=
  C3_existing_file_noop envExisting rfl

/-- C4: the Method B credential is an RSA key pair with public exponent
65537 and modulus size 2048 bits, and a self-signed certificate (subject
equals issuer) whose common name is "localhost" with the fixed placeholder
attributes (country JP, state Tokyo, locality Tokyo, organization
"Local Dev"), valid from the current time (first clock reading) to the
current time (second clock reading) plus 365 days, carrying a non-critical
Subject-Alternative-Name extension with DNS name "localhost" and IP address
127.0.0.1, and signed with SHA-256 using that same key. -/
theorem C4_methodB_certificate (n1 n2 s : Nat) :
    methodBKey = ⟨65537, 2048⟩ ∧
    (methodBCert n1 n2 s).publicKeyOf = methodBKey ∧
    (methodBCert n1 n2 s).signedWith = methodBKey ∧
    (methodBCert n1 n2 s).subject = (methodBCert n1 n2 s).issuer ∧
    (methodBCert n1 n2 s).subject =
      [⟨"COUNTRY_NAME", "JP"⟩, ⟨"STATE_OR_PROVINCE_NAME", "Tokyo"⟩,
       ⟨"LOCALITY_NAME", "Tokyo"⟩, ⟨"ORGANIZATION_NAME", "Local Dev"⟩,
       ⟨"COMMON_NAME", "localhost"⟩] ∧
    (⟨"COMMON_NAME", "localhost"⟩ : NameAttr) ∈ (methodBCert n1 n2 s).subject ∧
    (methodBCert n1 n2 s).serialNumber = s ∧
    (methodBCert n1 n2 s).notValidBefore = n1 ∧
    (methodBCert n1 n2 s).notValidAfter = n2 + 365 * secondsPerDay ∧
    (methodBCert n1 n2 s).san.critical = false ∧
    (methodBCert n1 n2 s).san.names =
      [.dnsName "localhost", .ipAddress "127.0.0.1"] ∧
    (methodBCert n1 n2 s).signatureHash = "SHA256" := by
  refine ⟨rfl, rfl, rfl, rfl, rfl, ?_, rfl, rfl, rfl, rfl, rfl, rfl⟩
  simp [methodBCert, subjectName]

/-- C5: on a successful Method B run the file written at the configured path
is the private key serialized in unencrypted traditional PEM form followed
by the certificate in PEM form, in one file, and control continues to the
server startup. -/
theorem C5_methodB_file_layout (env : Env) (h1 : env.fileExists = false)
    (h2 : methodAFails env) (h3 : env.cryptoAvailable = true)
    (h4 : env.keyWriteOk = true) (h5 : env.certWriteOk = true) :
    (provision env).file =
      .created
        [.privateKey methodBKey "PEM" "TraditionalOpenSSL" "NoEncryption",
         .certificate (methodBCert env.nowBefore env.nowAfter env.serialNum)
           "PEM"] ∧
    (provision env).ok = true := by
  have hg := methodA_guard_false env h2
  simp [provision, h1, h3, h4, h5, hg, keyBlock, certBlock]

/-- Witness for C5 at a concrete Method B environment. -/
theorem C5_methodB_file_layout_witness :
    (provision envMethodB).file =
      .created
        [.privateKey methodBKey "PEM" "TraditionalOpenSSL" "NoEncryption",
         .certificate
           (methodBCert envMethodB.nowBefore envMethodB.nowAfter
             envMethodB.serialNum) "PEM"] ∧
    (provision envMethodB).ok = true :=
  C5_methodB_file_layout envMethodB rfl (Or.inl rfl) rfl rfl rfl

/-- C6: Method A spawns the external tool with the fixed argument vector
`openssl req -new -x509 -keyout server.pem -out server.pem -days 365 -nodes
-subj /CN=localhost` (new self-signed request, 365-day validity, no key
encryption, common name "localhost", key and certificate both directed to
the configured credential path), capturing output and checking the exit
status; and on every run where the file is absent that exact call is
made. -/
theorem C6_openssl_invocation :
    opensslCall.args =
      ["openssl", "req", "-new", "-x509", "-keyout", certPath,
       "-out", certPath, "-days", "365", "-nodes", "-subj", "/CN=localhost"] ∧
    opensslCall.captureOutput = true ∧
    opensslCall.text = true ∧
    opensslCall.check = true ∧
    ∀ env : Env, env.fileExists = false →
      Event.ranSubprocess opensslCall ∈ (provision env).events := by
  refine ⟨rfl, rfl, rfl, rfl, ?_⟩
  intro env h
  unfold provision
  split
  · simp_all
  · split
    · simp
    · split
      · split
        · split <;> simp
        · simp
      · simp

/-- Witness for C6: the subprocess call happens in a concrete run with the
file absent. -/
theorem C6_openssl_invocation_witness :
    Event.ranSubprocess opensslCall ∈ (provision envNoCrypto).events :=
  C6_openssl_invocation.2.2.2.2 envNoCrypto rfl

/-- C1: (i) whenever the file is absent and Method A fails — tool not
resolvable or non-zero exit — Method B is attempted (the `cryptography`
library load of its `try` block runs) at a point before which no fatal event
(non-zero exit or uncaught exception) has occurred, so any fatal error comes
only after the attempt; (ii) whenever the file is absent and Method A
succeeds, Method B is never attempted. -/
theorem C1_fallback_ordering :
    (∀ env : Env, env.fileExists = false → methodAFails env →
        ∃ ok l1 l2,
          (provision env).events = l1 ++ Event.triedImport ok :: l2 ∧
          ∀ e ∈ l1, isFatal e = false) ∧
    (∀ env : Env, env.fileExists = false → methodASucceeds env →
        ∀ ok, Event.triedImport ok ∉ (provision env).events) := by
  constructor
  · intro env h1 h2
    have hg := methodA_guard_false env h2
    refine ⟨(if env.cryptoAvailable then true else false),
      [.checkedExists false, .printed "自己署名証明書を生成中...",
       .ranSubprocess opensslCall,
       .printed "OpenSSLが見つかりません。Pythonで証明書を生成します..."], ?_, ?_, ?_⟩
    · exact (if env.cryptoAvailable then
        (if env.keyWriteOk then
          (if env.certWriteOk then
            [.wroteBlock keyBlock, .wroteBlock (certBlock env),
             .printed "証明書を生成しました: server.pem"]
          else [.wroteBlock keyBlock, .raised "OSError"])
        else [.raised "OSError"])
      else remediationMsgs.map .printed ++ [.exited 1])
    · simp only [provision, h1, Bool.false_eq_true, if_false, hg]
      by_cases h3 : env.cryptoAvailable = true
      · by_cases h4 : env.keyWriteOk = true
        · by_cases h5 : env.certWriteOk = true
          · simp [h3, h4, h5]
          · simp [h3, h4, h5]
        · simp [h3, h4]
      · simp [h3]
    · decide
  · intro env h1 h2 ok
    have hg := methodA_guard_true env h2
    simp [provision, h1, hg]

/-- Witness for C1: part (i) at a run where Method A fails and the import
also fails, part (ii) at a run where Method A succeeds. -/
theorem C1_fallback_ordering_witness :
    (∃ ok l1 l2,
        (provision envNoCrypto).events = l1 ++ Event.triedImport ok :: l2 ∧
        ∀ e ∈ l1, isFatal e = false) ∧
    (∀ ok, Event.triedImport ok ∉ (provision envMethodA).events) :=
  ⟨C1_fallback_ordering.1 envNoCrypto rfl (Or.inl rfl),
   C1_fallback_ordering.2 envMethodA rfl ⟨rfl, rfl⟩⟩

/-- C2: when the file is absent, Method A fails and the `cryptography`
library is unavailable, every remediation line is printed, the last event is
`sys.exit(1)` (a non-zero exit code), control never reaches the server
startup, and the credential path holds no file at all — in particular no
partially written one. -/
theorem C2_fatal_path (env : Env) (h1 : env.fileExists = false)
    (h2 : methodAFails env) (h3 : env.cryptoAvailable = false) :
    (∀ m ∈ remediationMsgs, Event.printed m ∈ (provision env).events) ∧
    (provision env).events.getLast? = some (.exited 1) ∧
    (provision env).ok = false ∧
    (provision env).file = .absent := by
  have hg := methodA_guard_false env h2
  simp only [provision, h1, Bool.false_eq_true, if_false, hg, h3]
  refine ⟨?_, ?_, trivial, trivial⟩
  · decide
  · decide

/-- Witness for C2 at a concrete environment with no tool and no library. -/
theorem C2_fatal_path_witness :
    (∀ m ∈ remediationMsgs, Event.printed m ∈ (provision envNoCrypto).events) ∧
    (provision envNoCrypto).events.getLast? = some (.exited 1) ∧
    (provision envNoCrypto).ok = false ∧
    (provision envNoCrypto).file = .absent :=
  C2_fatal_path envNoCrypto rfl (Or.inl rfl) rfl

/-- C10 (implicit): in Method B only the missing-library `ImportError` is
caught; an OS-level failure of either file write propagates as an uncaught
exception — the last event is the raised `OSError`, no remediation line is
printed and no `sys.exit` happens — and when the failure hits the second
write (after the key was written) the configured path is left holding a
truncated file containing only the private-key block. -/
theorem C10_write_failure_uncaught :
    (∀ env : Env, env.fileExists = false → methodAFails env →
        env.cryptoAvailable = true →
        (env.keyWriteOk = false ∨ env.certWriteOk = false) →
        (provision env).events.getLast? = some (.raised "OSError") ∧
        (∀ m ∈ remediationMsgs, Event.printed m ∉ (provision env).events) ∧
        (∀ c, Event.exited c ∉ (provision env).events) ∧
        (provision env).ok = false) ∧
    (∀ env : Env, env.fileExists = false → methodAFails env →
        env.cryptoAvailable = true → env.keyWriteOk = true →
        env.certWriteOk = false →
        (provision env).file = .created [keyBlock]) := by
  constructor
  · intro env h1 h2 h3 h45
    have hg := methodA_guard_false env h2
    rcases h45 with h4 | h5
    · simp only [provision, h1, Bool.false_eq_true, if_false, hg, h3, h4,
        if_true]
      refine ⟨by decide, by decide, ?_, trivial⟩
      intro c
      simp
    · by_cases h4 : env.keyWriteOk = true
      · simp only [provision, h1, Bool.false_eq_true, if_false, hg, h3, h4,
          h5, if_true]
        refine ⟨by decide, by decide, ?_, trivial⟩
        intro c
        simp
      · simp only [Bool.not_eq_true] at h4
        simp only [provision, h1, Bool.false_eq_true, if_false, hg, h3, h4,
          if_true]
        refine ⟨by decide, by decide, ?_, trivial⟩
        intro c
        simp
  · intro env h1 h2 h3 h4 h5
    have hg := methodA_guard_false env h2
    simp [provision, h1, hg, h3, h4, h5]

/-- Witness for C10 at a run where the certificate write fails after the key
write succeeded. -/
theorem C10_write_failure_uncaught_witness :
    ((provision envCertWriteFail).events.getLast? =
        some (.raised "OSError") ∧
      (∀ m ∈ remediationMsgs,
        Event.printed m ∉ (provision envCertWriteFail).events) ∧
      (∀ c, Event.exited c ∉ (provision envCertWriteFail).events) ∧
      (provision envCertWriteFail).ok = false) ∧
    (provision envCertWriteFail).file = .created [keyBlock] :=
  ⟨C10_write_failure_uncaught.1 envCertWriteFail rfl (Or.inl rfl) rfl
      (Or.inr rfl),
   C10_write_failure_uncaught.2 envCertWriteFail rfl (Or.inl rfl) rfl rfl rfl⟩

/-- The last element of a list ending in an explicit singleton. -/
lemma getLast?_append_single {α : Type} (l : List α) (a : α) :
    (l ++ [a]).getLast? = some a :=
  List.getLast?_concat l

/-- The three event traces a successfully completed provisioning block can
have: file already present, Method A success, Method B success. -/
lemma provision_ok_events (env : Env) (h : (provision env).ok = true) :
    (provision env).events = [.checkedExists true] ∨
    (provision env).events =
      [.checkedExists false, .printed "自己署名証明書を生成中...",
       .ranSubprocess opensslCall, .printed "証明書を生成しました: server.pem"] ∨
    (provision env).events =
      [.checkedExists false, .printed "自己署名証明書を生成中...",
       .ranSubprocess opensslCall,
       .printed "OpenSSLが見つかりません。Pythonで証明書を生成します...",
       .triedImport true, .wroteBlock keyBlock, .wroteBlock (certBlock env),
       .printed "証明書を生成しました: server.pem"] := by
  by_cases h1 : env.fileExists = true
  · left
    simp [provision, h1]
  · simp only [Bool.not_eq_true] at h1
    by_cases h2 : (env.opensslFound && (env.opensslExit == 0)) = true
    · right; left
      simp [provision, h1, h2]
    · simp only [Bool.not_eq_true] at h2
      by_cases h3 : env.cryptoAvailable = true
      · by_cases h4 : env.keyWriteOk = true
        · by_cases h5 : env.certWriteOk = true
          · right; right
            simp [provision, h1, h2, h3, h4, h5]
          · exfalso
            simp only [Bool.not_eq_true] at h5
            simp [provision, h1, h2, h3, h4, h5] at h
        · exfalso
          simp only [Bool.not_eq_true] at h4
          simp [provision, h1, h2, h3, h4] at h
      · exfalso
        simp only [Bool.not_eq_true] at h3
        simp [provision, h1, h2, h3] at h

/-- After successful provisioning, `run` is the provisioning events followed
by the server-startup events. -/
lemma run_events_of_ok (env : Env) (h : (provision env).ok = true) :
    (run env).1 =
      (provision env).events ++ bootstrap env (credOk env (provision env).file) := by
  simp [run, h]

/-- C7: after successful provisioning, (i) a port already in use makes the
bind raise an `OSError` that is the final event — the process dies there, no
TLS context is built, the accept loop is never entered, and no `sys.exit`
call wraps the error; (ii) an unloadable credential file lets the bind and
the TLS-context construction happen but makes credential loading raise an
`SSLError` that is the final event — the socket is never wrapped, the accept
loop is never entered, and again no `sys.exit` call wraps the error. -/
theorem C7_bootstrap_errors :
    (∀ env : Env, (provision env).ok = true → env.portInUse = true →
        (run env).1.getLast? = some (.raised "OSError") ∧
        Event.builtTLSContext ∉ (run env).1 ∧
        Event.servedForever ∉ (run env).1 ∧
        (∀ c, Event.exited c ∉ (run env).1)) ∧
    (∀ env : Env, (provision env).ok = true → env.portInUse = false →
        credOk env (provision env).file = false →
        (run env).1.getLast? = some (.raised "SSLError") ∧
        Event.boundSocket HOST PORT ∈ (run env).1 ∧
        Event.builtTLSContext ∈ (run env).1 ∧
        Event.wrappedSocket ∉ (run env).1 ∧
        Event.servedForever ∉ (run env).1 ∧
        (∀ c, Event.exited c ∉ (run env).1)) := by
  constructor
  · intro env hok hport
    have hrun := run_events_of_ok env hok
    have hb : bootstrap env (credOk env (provision env).file) =
        startupMsgs.map Event.printed ++ [.raised "OSError"] := by
      simp [bootstrap, hport]
    rw [hrun, hb]
    have hs := provision_ok_events env hok
    refine ⟨?_, ?_, ?_, ?_⟩
    · rw [← List.append_assoc]
      exact getLast?_append_single _ _
    · rcases hs with hs | hs | hs <;> simp [hs, startupMsgs]
    · rcases hs with hs | hs | hs <;> simp [hs, startupMsgs]
    · intro c
      rcases hs with hs | hs | hs <;> simp [hs, startupMsgs]
  · intro env hok hport hcred
    have hrun := run_events_of_ok env hok
    have hb : bootstrap env (credOk env (provision env).file) =
        (startupMsgs.map Event.printed ++
          [.boundSocket HOST PORT, .builtTLSContext]) ++ [.raised "SSLError"] := by
      simp [bootstrap, hport, hcred]
    rw [hrun, hb]
    have hs := provision_ok_events env hok
    refine ⟨?_, ?_, ?_, ?_, ?_, ?_⟩
    · rw [← List.append_assoc]
      exact getLast?_append_single _ _
    · simp
    · simp
    · rcases hs with hs | hs | hs <;> simp [hs, startupMsgs]
    · rcases hs with hs | hs | hs <;> simp [hs, startupMsgs]
    · intro c
      rcases hs with hs | hs | hs <;> simp [hs, startupMsgs]

/-- Witness for C7: part (i) with the port busy, part (ii) with an
unloadable preexisting file. -/
theorem C7_bootstrap_errors_witness :
    ((run envPortBusy).1.getLast? = some (.raised "OSError") ∧
      Event.builtTLSContext ∉ (run envPortBusy).1 ∧
      Event.servedForever ∉ (run envPortBusy).1 ∧
      (∀ c, Event.exited c ∉ (run envPortBusy).1)) ∧
    ((run envBadCred).1.getLast? = some (.raised "SSLError") ∧
      Event.boundSocket HOST PORT ∈ (run envBadCred).1 ∧
      Event.builtTLSContext ∈ (run envBadCred).1 ∧
      Event.wrappedSocket ∉ (run envBadCred).1 ∧
      Event.servedForever ∉ (run envBadCred).1 ∧
      (∀ c, Event.exited c ∉ (run envBadCred).1)) :=
  ⟨C7_bootstrap_errors.1 envPortBusy rfl rfl,
   C7_bootstrap_errors.2 envBadCred rfl rfl rfl⟩

/-- C8: the configuration constants are fixed definitions — bind host
`0.0.0.0` (all interfaces), bind port 8443, credential file at the relative
path `server.pem` — and on every run where provisioning succeeded, the port
is free and the credential loads, the server binds that host and port, wraps
the socket in TLS and enters the accept loop as its final event. -/
theorem C8_configuration :
    HOST = "0.0.0.0" ∧ PORT = 8443 ∧ certPath = "server.pem" ∧
    (∀ env : Env, (provision env).ok = true → env.portInUse = false →
        credOk env (provision env).file = true →
        Event.boundSocket HOST PORT ∈ (run env).1 ∧
        Event.wrappedSocket ∈ (run env).1 ∧
        Event.loadedCertChain certPath ∈ (run env).1 ∧
        (run env).1.getLast? = some .servedForever) := by
  refine ⟨rfl, rfl, rfl, ?_⟩
  intro env hok hport hcred
  have hrun := run_events_of_ok env hok
  have hb : bootstrap env (credOk env (provision env).file) =
      (startupMsgs.map Event.printed ++
        [.boundSocket HOST PORT, .builtTLSContext, .loadedCertChain certPath,
         .wrappedSocket, .printed "Ctrl+C で停止"]) ++ [.servedForever] := by
    simp [bootstrap, hport, hcred]
  rw [hrun, hb]
  refine ⟨by simp, by simp, by simp, ?_⟩
  rw [← List.append_assoc]
  exact getLast?_append_single _ _

/-- Witness for C8 at a run reusing an existing loadable credential file. -/
theorem C8_configuration_witness :
    Event.boundSocket HOST PORT ∈ (run envExisting).1 ∧
    Event.wrappedSocket ∈ (run envExisting).1 ∧
    Event.loadedCertChain certPath ∈ (run envExisting).1 ∧
    (run envExisting).1.getLast? = some .servedForever :=
  C8_configuration.2.2.2 envExisting rfl rfl rfl

/-- C9: on every run that reaches the accept loop, all events strictly
precede the final `serve_forever` entry, and among them are the five startup
prints (bind URL, local URL, network URL, and the two-line warning that
browsers will flag the self-signed certificate) and the interrupt-key print
`Ctrl+C で停止`. -/
theorem C9_startup_messages (env : Env) (h1 : (provision env).ok = true)
    (h2 : env.portInUse = false)
    (h3 : credOk env (provision env).file = true) :
    ∃ l, (run env).1 = l ++ [Event.servedForever] ∧
      (∀ m ∈ startupMsgs, Event.printed m ∈ l) ∧
      Event.printed "Ctrl+C で停止" ∈ l := by
  have hrun := run_events_of_ok env h1
  have hb : bootstrap env (credOk env (provision env).file) =
      (startupMsgs.map Event.printed ++
        [.boundSocket HOST PORT, .builtTLSContext, .loadedCertChain certPath,
         .wrappedSocket, .printed "Ctrl+C で停止"]) ++ [.servedForever] := by
    simp [bootstrap, h2, h3]
  refine ⟨(provision env).events ++
    (startupMsgs.map Event.printed ++
      [.boundSocket HOST PORT, .builtTLSContext, .loadedCertChain certPath,
       .wrappedSocket, .printed "Ctrl+C で停止"]), ?_, ?_, ?_⟩
  · rw [hrun, hb]
    simp
  · intro m hm
    exact List.mem_append_right _
      (List.mem_append_left _ (List.mem_map_of_mem Event.printed hm))
  · simp

/-- Witness for C9 at a run reusing an existing loadable credential file. -/
theorem C9_startup_messages_witness :
    ∃ l, (run envExisting).1 = l ++ [Event.servedForever] ∧
      (∀ m ∈ startupMsgs, Event.printed m ∈ l) ∧
      Event.printed "Ctrl+C で停止" ∈ l :=
  C9_startup_messages envExisting rfl rfl rfl

end HttpsServer
